import Mathlib

/-!
Shallow embedding of the fan-control engine of
`ASUS-Fan-Control-using-ASUSFanControlEnhanced` (src/main.py).

Python integers are modelled as `Int`, Python float arithmetic in the
interpolation and smoothing paths as exact rational arithmetic carried as an
integer numerator/denominator pair with Python's banker's rounding (`round`
rounds half to even), fallible operations as `Option`.  External subprocess
calls (`_run_command`, the PowerShell driver probe) are modelled as oracle
inputs: the functions take the call's result as a parameter.
-/

/-- Python's built-in `round` applied to the exact rational `num / den`
(`den ≠ 0`): round half to even.  The sign is normalised onto the numerator,
`f` is the floor of the quotient and `r` the remainder in `[0, d)`; the
half-way comparison is `2 * r` against `d`. -/
def pyRound (num den : Int) : Int :=
  let n := if den < 0 then -num else num
  let d := if den < 0 then -den else den
  let f := n.fdiv d
  let r := n - f * d
  if 2 * r < d then f
  else if d < 2 * r then f + 1
  else if f % 2 = 0 then f else f + 1

/-- One `deque(maxlen := m).append x` step on the temperature history
(`self.temp_history.append(raw_temp)`): with `maxlen = 0` the deque stays
empty, otherwise the oldest entries are evicted from the left so that at
most `m` values remain. -/
def appendBounded (m : Nat) (h : List Int) (x : Int) : List Int :=
  if m = 0 then []
  else if h.length < m then h ++ [x]
  else (h.drop (h.length + 1 - m)) ++ [x]

/-- `FanController.get_smoothed_temp` (src/main.py:530-533): append the raw
temperature to the bounded history and return the rounded mean of the values
held.  `none` models the `ZeroDivisionError` raised when the history is empty
after the append (only possible with `smoothing_window = 0`).  The returned
list is the mutated `temp_history`. -/
def get_smoothed_temp (window : Nat) (hist : List Int) (raw : Int) :
    Option (Int × List Int) :=
  let h := appendBounded window hist raw
  if h.length = 0 then none
  else some (pyRound h.sum h.length, h)

/-- The preset fan-curve profiles `PROFILES` (src/main.py:41-51). -/
def PROFILES : List (String × List (Int × Int)) :=
  [ ("silent", [(0, 0), (35, 5), (45, 15), (55, 35), (65, 55), (75, 80), (85, 100)]),
    ("balanced", [(0, 10), (30, 10), (40, 25), (50, 50), (60, 75), (70, 100)]),
    ("performance", [(0, 20), (25, 30), (35, 50), (45, 70), (55, 90), (65, 100)]) ]

/-- Dictionary lookup `PROFILES[name]` / `name in PROFILES`. -/
def profilesLookup (name : String) : Option (List (Int × Int)) :=
  (PROFILES.find? (fun p => p.1 == name)).map (fun p => p.2)

/-- `COMPATIBLE_DRIVER_VERSION = (3, 1, 38, 0)` (src/main.py:55). -/
def COMPATIBLE_DRIVER_VERSION : List Int := [3, 1, 38, 0]

/-- The configuration fields consumed by the controller
(`DEFAULT_CONFIG`, src/main.py:21-37); defaults as in the source. -/
structure Config where
  low_temp : Int := 20
  high_temp : Int := 60
  min_speed : Int := 10
  max_speed : Int := 100
  hysteresis_degrees : Int := 3
  smoothing_window : Nat := 5
  spike_threshold : Int := 15
  max_consecutive_failures : Nat := 10
  profile : String := "balanced"
  curve : Option (List (Int × Int)) := none
  enable_notifications : Bool := false
deriving DecidableEq

/-- The mutable state of `FanController` (src/main.py:258-275).  The source
stores the config dict on the controller and `set_profile` mutates it, so the
config is a field here.  Leading underscores of the Python attribute names
are dropped (`_fan_curve` → `fan_curve`, `_driver_incompatible` →
`driver_incompatible`). -/
structure ControllerState where
  config : Config
  current_set_fan_percentage : Option Int := none
  previous_temp : Option Int := none
  consecutive_failures : Nat := 0
  temp_history : List Int := []
  fan_curve : List (Int × Int)
  driver_incompatible : Option Bool := none
deriving DecidableEq

/-- Stable insertion of a waypoint into a list sorted ascending by
temperature: the new element goes after existing elements with the same key,
as Python's stable `sorted(..., key := lambda x: x[0])` keeps earlier-seen
elements first. -/
def insertByTemp (x : Int × Int) : List (Int × Int) → List (Int × Int)
  | [] => [x]
  | y :: ys => if y.1 ≤ x.1 then y :: insertByTemp x ys else x :: y :: ys

/-- `sorted(curve, key := lambda x: x[0])`: stable sort by temperature. -/
def sortByTemp (l : List (Int × Int)) : List (Int × Int) :=
  l.foldl (fun acc x => insertByTemp x acc) []

/-- Steps 2-3 of `FanController._resolve_fan_curve` (src/main.py:286-297):
named preset if known, else the linear fallback built from the legacy
`low_temp`/`high_temp`/`min_speed`/`max_speed` thresholds. -/
def resolveProfileOrLinear (cfg : Config) : List (Int × Int) :=
  match profilesLookup cfg.profile with
  | some pc => pc
  | none => [(cfg.low_temp, cfg.min_speed), (cfg.high_temp, cfg.max_speed)]

/-- `FanController._resolve_fan_curve` (src/main.py:279-297): explicit custom
curve (if truthy, i.e. non-empty) > named preset > linear fallback from the
legacy thresholds. -/
def resolve_fan_curve (cfg : Config) : List (Int × Int) :=
  match cfg.curve with
  | some c => if c ≠ [] then sortByTemp c else resolveProfileOrLinear cfg
  | none => resolveProfileOrLinear cfg

/-- `FanController.set_profile` (src/main.py:299-309): on a known preset name,
store the name in the config, clear the custom-curve override, swap the active
curve and unset `current_set_fan_percentage`; on an unknown name log an error
and return `False` with the state untouched. -/
def set_profile (s : ControllerState) (name : String) : Bool × ControllerState :=
  match profilesLookup name with
  | none => (false, s)
  | some c =>
    (true,
      { s with
        config := { s.config with profile := name, curve := none },
        fan_curve := c,
        current_set_fan_percentage := none })

/-- The interpolation scan of `decide_fan_speed` (src/main.py:504-513): walk
adjacent waypoint pairs in ascending order; at the first pair with
`t_low ≤ temp ≤ t_high` return `s_high` if the temperatures coincide, else the
rounded linear interpolation; `none` if no pair brackets `temp`. -/
def interpTarget (temp : Int) : List (Int × Int) → Option Int
  | p :: q :: rest =>
    if p.1 ≤ temp ∧ temp ≤ q.1 then
      some (if q.1 = p.1 then q.2
        else pyRound (p.2 * (q.1 - p.1) + (temp - p.1) * (q.2 - p.2)) (q.1 - p.1))
    else interpTarget temp (q :: rest)
  | _ => none

/-- The pre-hysteresis target of `decide_fan_speed` (src/main.py:496-513) on
the non-empty curve `c0 :: rest`: clamp to the curve boundaries, otherwise
interpolate (the scan's initialiser `target = curve[-1][1]` survives when no
pair brackets `temp`). -/
def curveTarget (c0 : Int × Int) (rest : List (Int × Int)) (temp : Int) : Int :=
  let last := rest.getLastD c0
  if temp ≤ c0.1 then c0.2
  else if temp ≥ last.1 then last.2
  else (interpTarget temp (c0 :: rest)).getD last.2

/-- The hysteresis guard of `decide_fan_speed` (src/main.py:515-524): only
when a previous set speed and a previous raw temperature both exist, the new
target is lower than the previous set speed, and the temperature has dropped
by less than `hysteresis_degrees`, keep the previous set speed. -/
def applyHysteresis (cs pt : Option Int) (hys target temp : Int) : Int :=
  match cs, pt with
  | some cur, some prev =>
    if target < cur ∧ prev - temp < hys then cur else target
  | _, _ => target

/-- Whether the hysteresis guard fires and overrides `target`. -/
def hystOverrides (s : ControllerState) (target temp : Int) : Bool :=
  match s.current_set_fan_percentage, s.previous_temp with
  | some cur, some prev =>
    if target < cur ∧ prev - temp < s.config.hysteresis_degrees then true
    else false
  | _, _ => false

/-- `FanController.decide_fan_speed` (src/main.py:492-526): curve target,
then the hysteresis guard, then the final clamp to [0, 100].  `none` models
the `IndexError` on an empty curve. -/
def decide_fan_speed (s : ControllerState) (temp : Int) : Option Int :=
  match s.fan_curve with
  | [] => none
  | c0 :: rest =>
    some (max 0 (min 100
      (applyHysteresis s.current_set_fan_percentage s.previous_temp
        s.config.hysteresis_degrees (curveTarget c0 rest temp) temp)))

/-- `FanController.detect_spike` (src/main.py:535-546): true iff a previous
temperature exists and the jump reaches the spike threshold. -/
def detect_spike (s : ControllerState) (current : Int) : Bool :=
  match s.previous_temp with
  | some prev => current - prev ≥ s.config.spike_threshold
  | none => false

/-- `FanController.set_fan_speed` (src/main.py:473-488).  `dispatch` is the
oracle result of `_run_command(["AsusFanControl.exe", "--set-fan-speeds=…"])`.
Returns the success flag and the new `current_set_fan_percentage`: unchanged
and `True` when the value is already set (no command issued), updated on a
successful dispatch, unchanged with `False` on a failed one. -/
def set_fan_speed (currentSet : Option Int) (percentage : Int)
    (dispatch : Option String) : Bool × Option Int :=
  if currentSet = some percentage then (true, currentSet)
  else
    match dispatch with
    | some _ => (true, some percentage)
    | none => (false, currentSet)

/-- Logging severities used by the control loop. -/
inductive Severity where
  | info
  | warning
  | error
  | critical
deriving DecidableEq

/-- Outcome of one control-loop tick: the mutated state, the tick's target
fan speed, and the severity of the classification branch's log call. -/
structure TickResult where
  state : ControllerState
  fanSpeed : Int
  severity : Severity
deriving DecidableEq

/-- The `raw_temp is None or negative` branch of `FanController.run`
(src/main.py:619-638): increment the failure counter, force the fan to 100,
log critically once the counter reaches `max_consecutive_failures`, a warning
below it. -/
def failTick (s : ControllerState) : TickResult :=
  let n := s.consecutive_failures + 1
  { state := { s with consecutive_failures := n },
    fanSpeed := 100,
    severity :=
      if n ≥ s.config.max_consecutive_failures then Severity.critical
      else Severity.warning }

/-- One iteration of `FanController.run`'s classification and decision
(src/main.py:572-638), up to (not including) the dispatch step.  `raw` is the
oracle result of `get_cpu_temp()` (`none` = failed or unparseable read);
`driverAfter` is the value of `_driver_incompatible` after the throttled
`_check_driver_if_needed()` call made on a zero read (the probe is an external
subprocess, so its outcome is an input).  `none` models an exception escaping
to the loop's generic handler (empty curve, or zero smoothing window). -/
def runTick (s : ControllerState) (raw : Option Int) (driverAfter : Option Bool) :
    Option TickResult :=
  match raw with
  | some t =>
    if t > 0 then
      let s1 := { s with consecutive_failures := 0 }
      if detect_spike s1 t then
        some { state := { s1 with previous_temp := some t },
               fanSpeed := 100, severity := Severity.warning }
      else
        match get_smoothed_temp s1.config.smoothing_window s1.temp_history t with
        | none => none
        | some (smoothed, hist) =>
          let s2 := { s1 with temp_history := hist }
          match decide_fan_speed s2 smoothed with
          | none => none
          | some fan =>
            some { state := { s2 with previous_temp := some t },
                   fanSpeed := fan, severity := Severity.info }
    else if t = 0 then
      let s1 := { s with
        consecutive_failures := s.consecutive_failures + 1,
        driver_incompatible := driverAfter }
      some { state := s1, fanSpeed := 100,
             severity :=
               if driverAfter = some true then Severity.critical
               else Severity.warning }
    else
      some (failTick s)
  | none => some (failTick s)

/-- ASCII whitespace as stripped by Python's `str.strip()` on the strings at
hand. -/
def isPyWs (c : Char) : Bool :=
  c = ' ' || c = '\t' || c = '\n' || c = '\r' || c = '\x0b' || c = '\x0c'

/-- `str.strip()` on a character list: drop whitespace from both ends. -/
def pyStrip (cs : List Char) : List Char :=
  ((cs.dropWhile isPyWs).reverse.dropWhile isPyWs).reverse

/-- `str.split(".")` on a character list: cut at every dot, keeping empty
pieces (so `"".split(".") = [""]` and `"a..b".split(".") = ["a", "", "b"]`). -/
def splitOnDotAux (acc : List Char) : List Char → List (List Char)
  | [] => [acc.reverse]
  | c :: cs =>
    if c = '.' then acc.reverse :: splitOnDotAux [] cs
    else splitOnDotAux (c :: acc) cs

/-- `version_str.split(".")`. -/
def splitOnDot (cs : List Char) : List (List Char) :=
  splitOnDotAux [] cs

/-- Digit tail of a Python decimal integer literal: underscores allowed only
singly and between digits. -/
def digitsTail : List Char → Bool
  | [] => true
  | '_' :: c :: cs => c.isDigit && digitsTail cs
  | ['_'] => false
  | c :: cs => c.isDigit && digitsTail cs

/-- Numeric value of a digit run (underscores skipped). -/
def digitsVal : List Char → Nat
  | [] => 0
  | '_' :: cs => digitsVal cs
  | c :: cs => digitsVal cs + c.toNat.sub 48 * 10 ^ (cs.filter (fun d => d ≠ '_')).length

/-- Python's `int(str)` on a decimal string (as a character list): strip
whitespace, optional sign, then a non-empty digit run; `none` models the
`ValueError`. -/
def pyToInt (s : List Char) : Option Int :=
  match pyStrip s with
  | '+' :: c :: r => if c.isDigit && digitsTail r then some (digitsVal (c :: r)) else none
  | '-' :: c :: r => if c.isDigit && digitsTail r then some (-(digitsVal (c :: r) : Int)) else none
  | '+' :: [] => none
  | '-' :: [] => none
  | c :: r => if c.isDigit && digitsTail r then some (digitsVal (c :: r)) else none
  | [] => none

/-- `tuple(int(x) for x in …)` over the dot-separated components: `none` as
soon as any component fails to parse (the generator's `ValueError`). -/
def parseParts : List (List Char) → Option (List Int)
  | [] => some []
  | p :: ps =>
    match pyToInt p, parseParts ps with
    | some n, some ns => some (n :: ns)
    | _, _ => none

/-- `_parse_version` (src/main.py:59-64): split the stripped string on dots
and parse each component; any failure yields `(0,)`. -/
def parse_version (s : String) : List Int :=
  match parseParts (splitOnDot (pyStrip s.toList)) with
  | some l => l
  | none => [0]

/-- Python tuple comparison `a > b`: lexicographic, a longer tuple beats its
proper prefix. -/
def listGtInt : List Int → List Int → Bool
  | [], _ => false
  | _ :: _, [] => true
  | a :: as_, b :: bs => if b < a then true else if a < b then false else listGtInt as_ bs

/-- The flag assignment of `_check_driver_if_needed` (src/main.py:386-426)
given the probe's result (`check_driver_version()`, an external subprocess —
throttling elided): a missing version resets the flag to `none` (unknown), a
version string sets it to whether the parsed version exceeds
`COMPATIBLE_DRIVER_VERSION`. -/
def check_driver_outcome (probe : Option String) : Option Bool :=
  match probe with
  | none => none
  | some v => some (listGtInt (parse_version v) COMPATIBLE_DRIVER_VERSION)

/-- `FanController.adaptive_sleep` (src/main.py:550-560). -/
def adaptive_sleep (cfg : Config) (temp : Option Int) : Int :=
  match temp with
  | none => 3
  | some t =>
    if t ≤ 0 then 3
    else if t < cfg.high_temp - 10 then 10
    else if t < cfg.high_temp then 5
    else 3

/-- The controller state right after `FanController.__init__` with the
default configuration: balanced preset curve, nothing set yet. -/
def balancedState : ControllerState :=
  { config := {}, fan_curve := resolve_fan_curve {} }

/-- A freshly initialised controller whose configuration sets
`max_consecutive_failures` to 1. -/
def oneFailureState : ControllerState :=
  { config := { max_consecutive_failures := 1 },
    fan_curve := resolve_fan_curve { max_consecutive_failures := 1 } }

-- Helper lemmas ------------------------------------------------------------

theorem insertByTemp_length (x : Int × Int) (l : List (Int × Int)) :
    (insertByTemp x l).length = l.length + 1 := by
  induction l with
  | nil => rfl
  | cons y ys ih =>
    unfold insertByTemp
    split
    · simp [ih]
    · simp

theorem sortByTemp_length (l : List (Int × Int)) :
    (sortByTemp l).length = l.length := by
  unfold sortByTemp
  suffices h : ∀ acc : List (Int × Int),
      (l.foldl (fun a x => insertByTemp x a) acc).length = acc.length + l.length by
    simpa using h []
  induction l with
  | nil => intro acc; simp
  | cons y ys ih =>
    intro acc
    simp only [List.foldl_cons, ih, insertByTemp_length, List.length_cons]
    omega

theorem profilesLookup_ne_nil (name : String) (c : List (Int × Int))
    (h : profilesLookup name = some c) : c ≠ [] := by
  unfold profilesLookup at h
  rcases hfind : PROFILES.find? (fun p => p.1 == name) with _ | p
  · rw [hfind] at h; cases h
  · rw [hfind] at h
    have hmem := List.mem_of_find?_eq_some hfind
    simp only [Option.map_some'] at h
    rw [show c = p.2 from (Option.some.inj h).symm]
    simp only [PROFILES, List.mem_cons, List.not_mem_nil, or_false] at hmem
    rcases hmem with h1 | h1 | h1 <;> subst h1 <;> simp

theorem resolveProfileOrLinear_ne_nil (cfg : Config) :
    resolveProfileOrLinear cfg ≠ [] := by
  unfold resolveProfileOrLinear
  rcases hp : profilesLookup cfg.profile with _ | pc
  · simp
  · exact profilesLookup_ne_nil _ _ hp

theorem resolve_fan_curve_ne_nil (cfg : Config) : resolve_fan_curve cfg ≠ [] := by
  unfold resolve_fan_curve
  rcases hcv : cfg.curve with _ | c
  · exact resolveProfileOrLinear_ne_nil cfg
  · show (if c ≠ [] then sortByTemp c else resolveProfileOrLinear cfg) ≠ []
    by_cases hc : c = []
    · rw [if_neg (by simp [hc])]
      exact resolveProfileOrLinear_ne_nil cfg
    · rw [if_pos hc]
      intro hs
      have hlen := sortByTemp_length c
      rw [hs] at hlen
      simp only [List.length_nil] at hlen
      exact hc (List.length_eq_zero.mp hlen.symm)

theorem decide_fan_speed_cons (s : ControllerState) (c0 : Int × Int)
    (rest : List (Int × Int)) (temp : Int) (h : s.fan_curve = c0 :: rest) :
    decide_fan_speed s temp =
      some (max 0 (min 100
        (applyHysteresis s.current_set_fan_percentage s.previous_temp
          s.config.hysteresis_degrees (curveTarget c0 rest temp) temp))) := by
  unfold decide_fan_speed
  rw [h]

theorem applyHysteresis_of_not_overrides (s : ControllerState) (target temp : Int)
    (h : hystOverrides s target temp = false) :
    applyHysteresis s.current_set_fan_percentage s.previous_temp
      s.config.hysteresis_degrees target temp = target := by
  unfold hystOverrides at h
  unfold applyHysteresis
  rcases hcs : s.current_set_fan_percentage with _ | cur <;>
    rcases hpt : s.previous_temp with _ | prev <;> simp_all

-- Claim theorems ------------------------------------------------------------

/-- C7: with the balanced preset curve and no hysteresis state
(`currentSetSpeed` unset), `decide_fan_speed 45` interpolates between the
bracketing waypoints (40, 25) and (50, 50) with fraction 0.5 and returns
exactly 38. -/
theorem C7_balanced_interpolation :
    balancedState.fan_curve = [(0, 10), (30, 10), (40, 25), (50, 50), (60, 75), (70, 100)] ∧
    balancedState.current_set_fan_percentage = none ∧
    interpTarget 45 balancedState.fan_curve = some 38 ∧
    decide_fan_speed balancedState 45 = some 38 := by decide

/-- C1 counterexample: at a temperature at or below the lowest waypoint's
temperature, a controller state with a previous set speed of 50 and a
previous temperature 2 degrees above the input makes `decide_fan_speed`
return 50, not the lowest waypoint's speed 10 — the claim's "for every
controller state (including states where a previous set speed and a previous
temperature exist)" fails because the hysteresis guard overrides the boundary
target. -/
theorem C1_counterexample :
    balancedState.fan_curve.head? = some (0, 10) ∧
    decide_fan_speed
      { balancedState with
        current_set_fan_percentage := some 50, previous_temp := some 2 } 0 =
      some 50 ∧
    (50 : Int) ≠ 10 := by decide

/-- C1 (amended): for a non-empty curve and any temperature at or below the
lowest waypoint's temperature, provided the hysteresis guard does not fire on
that waypoint's speed, `decide_fan_speed` returns that speed clamped to
[0, 100]; symmetrically for the highest waypoint (when the curve has more
than one waypoint the statement additionally assumes the lowest and highest
waypoint temperatures are distinct, since with all-equal temperatures the
low branch of the source wins). -/
theorem C1_boundary_amended (s : ControllerState) (c0 : Int × Int)
    (rest : List (Int × Int)) (temp : Int)
    (hcurve : s.fan_curve = c0 :: rest) :
    (temp ≤ c0.1 → hystOverrides s c0.2 temp = false →
      decide_fan_speed s temp = some (max 0 (min 100 c0.2))) ∧
    (temp ≥ (rest.getLastD c0).1 → (rest = [] ∨ c0.1 < (rest.getLastD c0).1) →
      hystOverrides s (rest.getLastD c0).2 temp = false →
      decide_fan_speed s temp = some (max 0 (min 100 (rest.getLastD c0).2))) := by
  constructor
  · intro hlow hguard
    have ht : curveTarget c0 rest temp = c0.2 := by
      simp only [curveTarget]
      rw [if_pos hlow]
    rw [decide_fan_speed_cons s c0 rest temp hcurve, ht,
      applyHysteresis_of_not_overrides s _ temp hguard]
  · intro hhigh hne hguard
    have ht : curveTarget c0 rest temp = (rest.getLastD c0).2 := by
      simp only [curveTarget]
      rcases hne with h | h
      · subst h
        simp only [List.getLastD] at hhigh ⊢
        by_cases hle : temp ≤ c0.1
        · rw [if_pos hle]
        · rw [if_neg hle, if_pos hhigh]
      · rw [if_neg (by omega), if_pos hhigh]
    rw [decide_fan_speed_cons s c0 rest temp hcurve, ht,
      applyHysteresis_of_not_overrides s _ temp hguard]

/-- Witness for C1: on the fresh default state (no previous set speed), a
temperature below the lowest balanced waypoint returns that waypoint's speed,
and one above the highest returns the top speed. -/
theorem C1_boundary_witness :
    decide_fan_speed balancedState (-5) = some (max 0 (min 100 10)) ∧
    decide_fan_speed balancedState 95 = some (max 0 (min 100 100)) := by
  constructor
  · exact (C1_boundary_amended balancedState (0, 10)
      [(30, 10), (40, 25), (50, 50), (60, 75), (70, 100)] (-5) (by decide)).1
      (by decide) (by decide)
  · exact (C1_boundary_amended balancedState (0, 10)
      [(30, 10), (40, 25), (50, 50), (60, 75), (70, 100)] 95 (by decide)).2
      (by decide) (by decide) (by decide)

/-- C4: with a previous set speed `S` in [0, 100], a known previous
temperature `P` and a curve-computed target `T` in [0, 100]: when `T < S`,
`decide_fan_speed` returns `S` if `P - temp` is below the hysteresis margin
and `T` once the drop reaches it; and when `T ≥ S` the decision returns `T`
(hysteresis never blocks an increase). -/
theorem C4_hysteresis (s : ControllerState) (c0 : Int × Int)
    (rest : List (Int × Int)) (S P temp : Int)
    (hcurve : s.fan_curve = c0 :: rest)
    (hcs : s.current_set_fan_percentage = some S)
    (hpt : s.previous_temp = some P)
    (hS0 : 0 ≤ S) (hS1 : S ≤ 100)
    (hT0 : 0 ≤ curveTarget c0 rest temp) (hT1 : curveTarget c0 rest temp ≤ 100) :
    (curveTarget c0 rest temp < S →
      ((P - temp < s.config.hysteresis_degrees → decide_fan_speed s temp = some S) ∧
       (s.config.hysteresis_degrees ≤ P - temp →
        decide_fan_speed s temp = some (curveTarget c0 rest temp)))) ∧
    (S ≤ curveTarget c0 rest temp →
      decide_fan_speed s temp = some (curveTarget c0 rest temp)) := by
  have hd := decide_fan_speed_cons s c0 rest temp hcurve
  rw [hcs, hpt] at hd
  simp only [applyHysteresis] at hd
  constructor
  · intro hTS
    constructor
    · intro hdrop
      rw [hd, if_pos ⟨hTS, hdrop⟩]
      congr 1
      omega
    · intro hdrop
      rw [hd, if_neg (by omega)]
      congr 1
      omega
  · intro hST
    rw [hd, if_neg (by omega)]
    congr 1
    omega

/-- Witness for C4: previous set speed 50, previous temperature 46, input 45
(computed target 38 < 50, drop 1 below the margin 3) keeps the fan at 50. -/
theorem C4_hysteresis_witness :
    decide_fan_speed
      { balancedState with
        current_set_fan_percentage := some 50, previous_temp := some 46 } 45 =
      some 50 :=
  ((C4_hysteresis
    { balancedState with
      current_set_fan_percentage := some 50, previous_temp := some 46 }
    (0, 10) [(30, 10), (40, 25), (50, 50), (60, 75), (70, 100)] 50 46 45
    (by decide) (by decide) (by decide) (by decide) (by decide) (by decide)
    (by decide)).1 (by decide)).1 (by decide)

/-- C2 counterexample: with `max_consecutive_failures = 1`, a zero-temperature
read on a fresh state raises the failure counter to the maximum, yet the
tick's logged severity is `warning`, not `critical` (the zero-read branch
logs critically only when the driver-incompatible flag is true) — refuting
"once consecutiveFailures reaches max_consecutive_failures the tick's logged
severity is critical" as stated. -/
theorem C2_counterexample :
    oneFailureState.config.max_consecutive_failures = 1 ∧
    oneFailureState.consecutive_failures = 0 ∧
    (runTick oneFailureState (some 0) none).map
      (fun r => r.state.consecutive_failures) = some 1 ∧
    (runTick oneFailureState (some 0) none).map TickResult.fanSpeed = some 100 ∧
    (runTick oneFailureState (some 0) none).map TickResult.severity =
      some Severity.warning ∧
    Severity.warning ≠ Severity.critical := by decide

/-- C2 (amended): every failed, unparseable or negative read and every zero
read makes the tick target fan speed 100 and increments `consecutiveFailures`;
for failed/unparseable/negative reads the tick's severity is `critical`
exactly once the incremented count reaches `max_consecutive_failures`; for
zero reads the severity is `critical` exactly when the driver-incompatible
flag (after the throttled driver check) is true, independently of the count;
and any valid positive read resets `consecutiveFailures` to 0. -/
theorem C2_tick_amended (s : ControllerState) (d : Option Bool) :
    (runTick s none d =
      some { state := { s with consecutive_failures := s.consecutive_failures + 1 },
             fanSpeed := 100,
             severity :=
               if s.consecutive_failures + 1 ≥ s.config.max_consecutive_failures
               then Severity.critical else Severity.warning }) ∧
    (∀ t : Int, t < 0 → runTick s (some t) d =
      some { state := { s with consecutive_failures := s.consecutive_failures + 1 },
             fanSpeed := 100,
             severity :=
               if s.consecutive_failures + 1 ≥ s.config.max_consecutive_failures
               then Severity.critical else Severity.warning }) ∧
    (runTick s (some 0) d =
      some { state := { s with
                        consecutive_failures := s.consecutive_failures + 1,
                        driver_incompatible := d },
             fanSpeed := 100,
             severity :=
               if d = some true then Severity.critical else Severity.warning }) ∧
    (∀ (t : Int) (r : TickResult), 0 < t → runTick s (some t) d = some r →
      r.state.consecutive_failures = 0) := by
  refine ⟨rfl, ?_, ?_, ?_⟩
  · intro t ht
    simp only [runTick]
    rw [if_neg (by omega), if_neg (by omega)]
    rfl
  · simp [runTick]
  · intro t r ht hr
    simp only [runTick] at hr
    rw [if_pos ht] at hr
    by_cases hs : detect_spike { s with consecutive_failures := 0 } t
    · rw [if_pos hs] at hr
      cases hr
      rfl
    · rw [if_neg hs] at hr
      split at hr
      · cases hr
      · split at hr
        · cases hr
        · cases hr
          rfl

/-- Witness for C2: a negative read on the fresh default state increments the
counter to 1 and warns; a positive read after a failure resets the counter. -/
theorem C2_tick_witness :
    runTick balancedState (some (-1)) none =
      some { state := { balancedState with consecutive_failures := 0 + 1 },
             fanSpeed := 100,
             severity :=
               if 0 + 1 ≥ balancedState.config.max_consecutive_failures
               then Severity.critical else Severity.warning } ∧
    (∀ r : TickResult,
      runTick { balancedState with consecutive_failures := 3 } (some 50) none = some r →
      r.state.consecutive_failures = 0) := by
  constructor
  · exact (C2_tick_amended balancedState none).2.1 (-1) (by decide)
  · intro r hr
    exact (C2_tick_amended { balancedState with consecutive_failures := 3 } none).2.2.2
      50 r (by decide) hr

/-- C3 counterexample: switching to the known preset "silent" succeeds but
leaves a non-empty `temp_history` untouched — the claim's "clears
temperatureHistory" fails (src/main.py:299-309 never touches
`self.temp_history`). -/
theorem C3_counterexample :
    (set_profile { balancedState with temp_history := [50] } "silent").1 = true ∧
    (set_profile { balancedState with temp_history := [50] } "silent").2.temp_history =
      [50] ∧
    ([50] : List Int) ≠ ([] : List Int) := by decide

/-- C3 (amended): for a known preset name, `set_profile` stores the name,
clears the explicit custom-curve override, swaps the active curve, resets
`currentSetSpeed` to unset and returns true, leaving every other field —
`temperatureHistory` included — unchanged; for an unknown name it returns
false and leaves the whole state unchanged. -/
theorem C3_set_profile_amended (s : ControllerState) (name : String) :
    (∀ c, profilesLookup name = some c →
      set_profile s name =
        (true,
          { s with
            config := { s.config with profile := name, curve := none },
            fan_curve := c,
            current_set_fan_percentage := none })) ∧
    (profilesLookup name = none → set_profile s name = (false, s)) := by
  constructor
  · intro c hc
    unfold set_profile
    rw [hc]
  · intro hc
    unfold set_profile
    rw [hc]

/-- Witness for C3: switching the fresh default state to "silent" succeeds
and swaps the curve; switching to the unknown name "turbo" fails and changes
nothing. -/
theorem C3_set_profile_witness :
    set_profile balancedState "silent" =
      (true,
        { balancedState with
          config := { balancedState.config with profile := "silent", curve := none },
          fan_curve := [(0, 0), (35, 5), (45, 15), (55, 35), (65, 55), (75, 80), (85, 100)],
          current_set_fan_percentage := none }) ∧
    set_profile balancedState "turbo" = (false, balancedState) :=
  ⟨(C3_set_profile_amended balancedState "silent").1
      [(0, 0), (35, 5), (45, 15), (55, 35), (65, 55), (75, 80), (85, 100)] (by decide),
   (C3_set_profile_amended balancedState "turbo").2 (by decide)⟩

/-- C5: for every configuration — custom curves with out-of-range speeds
included — and every controller state carrying the resolved curve, the
decision is defined and always lands in [0, 100] thanks to the final clamp. -/
theorem C5_decision_in_range (s : ControllerState) (temp : Int)
    (hresolved : s.fan_curve = resolve_fan_curve s.config) :
    ∃ v, decide_fan_speed s temp = some v ∧ 0 ≤ v ∧ v ≤ 100 := by
  rcases hc : resolve_fan_curve s.config with _ | ⟨c0, rest⟩
  · exact absurd hc (resolve_fan_curve_ne_nil s.config)
  · rw [hc] at hresolved
    refine ⟨_, decide_fan_speed_cons s c0 rest temp hresolved, ?_, ?_⟩ <;> omega

/-- Witness for C5: a controller resolved from a custom curve whose speeds
lie outside [0, 100] still decides inside [0, 100]. -/
theorem C5_decision_witness :
    ∃ v,
      decide_fan_speed
        { config := { curve := some [(10, -20), (50, 180)] },
          fan_curve := resolve_fan_curve { curve := some [(10, -20), (50, 180)] } } 60 =
        some v ∧ 0 ≤ v ∧ v ≤ 100 :=
  C5_decision_in_range
    { config := { curve := some [(10, -20), (50, 180)] },
      fan_curve := resolve_fan_curve { curve := some [(10, -20), (50, 180)] } }
    60 rfl

theorem appendBounded_ne_nil (m : Nat) (h : List Int) (x : Int) (hm : 1 ≤ m) :
    appendBounded m h x ≠ [] := by
  unfold appendBounded
  rw [if_neg (by omega)]
  split <;> simp

/-- C6: `get_smoothed_temp` pushes the raw value into the FIFO bounded by
`smoothing_window` (appending below capacity, evicting the oldest at
capacity) and returns the rounded arithmetic mean of the values now held;
in particular feeding [50, 60, 70, 80, 90] into an empty capacity-5 window
makes the last call return 70, and feeding 100 next evicts 50 and returns
80. -/
theorem C6_smoothing :
    (∀ (w : Nat) (h : List Int) (x : Int), 1 ≤ w →
      get_smoothed_temp w h x =
        some (pyRound (appendBounded w h x).sum (appendBounded w h x).length,
              appendBounded w h x) ∧
      (h.length < w → appendBounded w h x = h ++ [x]) ∧
      (h.length = w → appendBounded w h x = h.drop 1 ++ [x])) ∧
    (List.foldl (appendBounded 5) [] [50, 60, 70, 80] = [50, 60, 70, 80] ∧
     get_smoothed_temp 5 [50, 60, 70, 80] 90 = some (70, [50, 60, 70, 80, 90]) ∧
     get_smoothed_temp 5 [50, 60, 70, 80, 90] 100 = some (80, [60, 70, 80, 90, 100])) := by
  constructor
  · intro w h x hw
    have hne := appendBounded_ne_nil w h x hw
    have hlen : (appendBounded w h x).length ≠ 0 := by
      simpa [List.length_eq_zero] using hne
    refine ⟨?_, ?_, ?_⟩
    · simp only [get_smoothed_temp]
      rw [if_neg hlen]
    · intro hlt
      unfold appendBounded
      rw [if_neg (by omega), if_pos hlt]
    · intro heq
      unfold appendBounded
      rw [if_neg (by omega), if_neg (by omega),
        show h.length + 1 - w = 1 by omega]
  · exact ⟨by decide, by decide, by decide⟩

/-- Witness for C6: one concrete push through the general clause. -/
theorem C6_smoothing_witness :
    get_smoothed_temp 5 [3] 7 =
      some (pyRound (appendBounded 5 [3] 7).sum (appendBounded 5 [3] 7).length,
            appendBounded 5 [3] 7) :=
  (C6_smoothing.1 5 [3] 7 (by decide)).1

/-- C8: when the requested percentage differs from `currentSetSpeed`, a
failed dispatch returns false and leaves `currentSetSpeed` unchanged (so the
same target is re-sent next tick), a successful dispatch returns true and
records the new percentage, and `currentSetSpeed` becomes the new percentage
exactly when the dispatch succeeded. -/
theorem C8_set_fan_speed_atomic (cs : Option Int) (p : Int) (d : Option String)
    (hne : cs ≠ some p) :
    (d = none → set_fan_speed cs p d = (false, cs)) ∧
    (∀ out, d = some out → set_fan_speed cs p d = (true, some p)) ∧
    ((set_fan_speed cs p d).2 = some p ↔ d ≠ none) := by
  unfold set_fan_speed
  rw [if_neg hne]
  refine ⟨?_, ?_, ?_⟩
  · intro h
    subst h
    rfl
  · intro out h
    subst h
    rfl
  · cases d with
    | none => simpa using hne
    | some out => simp

/-- Witness for C8: a failed dispatch of 50 from an unset state changes
nothing; a successful dispatch from 30 records 50. -/
theorem C8_set_fan_speed_witness :
    set_fan_speed none 50 none = (false, none) ∧
    set_fan_speed (some 30) 50 (some "Fan speeds set to 50%") = (true, some 50) :=
  ⟨(C8_set_fan_speed_atomic none 50 none (by decide)).1 rfl,
   (C8_set_fan_speed_atomic (some 30) 50 (some "Fan speeds set to 50%")
      (by decide)).2.1 "Fan speeds set to 50%" rfl⟩

/-- C9: any probe string with a component that does not parse as an integer
(the empty string included) makes `parse_version` return (0,), which
compares below — never above — the compatible-version ceiling, so the driver
check classifies such a probe as compatible rather than setting the
driver-incompatible flag. -/
theorem C9_malformed_version_compatible (s : String)
    (hbad : parseParts (splitOnDot (pyStrip s.toList)) = none) :
    parse_version s = [0] ∧
    listGtInt [0] COMPATIBLE_DRIVER_VERSION = false ∧
    listGtInt COMPATIBLE_DRIVER_VERSION [0] = true ∧
    check_driver_outcome (some s) = some false := by
  have hpv : parse_version s = [0] := by
    unfold parse_version
    rw [hbad]
  refine ⟨hpv, by decide, by decide, ?_⟩
  show some (listGtInt (parse_version s) COMPATIBLE_DRIVER_VERSION) = some false
  rw [hpv]
  decide

/-- Witness for C9: the empty probe string is classified compatible. -/
theorem C9_malformed_version_witness :
    parse_version "" = [0] ∧ check_driver_outcome (some "") = some false :=
  ⟨(C9_malformed_version_compatible "" (by decide)).1,
   (C9_malformed_version_compatible "" (by decide)).2.2.2⟩

/-- C10: with `smoothing_window ≥ 1` the history is non-empty after the
append, so the division in `get_smoothed_temp` never sees length 0 and the
call always produces a value; with `smoothing_window = 0` the guarantee
fails — every call hits the empty-history division (`ZeroDivisionError`,
modelled as `none`). -/
theorem C10_smoothing_division_safe :
    (∀ (w : Nat) (h : List Int) (x : Int), 1 ≤ w →
      1 ≤ (appendBounded w h x).length ∧
      (get_smoothed_temp w h x).isSome = true) ∧
    (∀ (h : List Int) (x : Int), get_smoothed_temp 0 h x = none) := by
  constructor
  · intro w h x hw
    have hne := appendBounded_ne_nil w h x hw
    have hlen : (appendBounded w h x).length ≠ 0 := by
      simpa [List.length_eq_zero] using hne
    constructor
    · omega
    · simp only [get_smoothed_temp]
      rw [if_neg hlen]
      rfl
  · intro h x
    simp [get_smoothed_temp, appendBounded]

/-- Witness for C10: a concrete safe call with window 2. -/
theorem C10_smoothing_division_witness :
    1 ≤ (appendBounded 2 [] 5).length ∧ (get_smoothed_temp 2 [] 5).isSome = true :=
  C10_smoothing_division_safe.1 2 [] 5 (by decide)
